import Mathlib

/-
Verification development for the CUDA flocking simulation in src/kernel.cu.

The kernels are embedded shallowly: device arrays become functions from
indices, each CUDA kernel launch over N threads becomes a pointwise
definition (guarded by the thread's `index < N` test) or a fold over the
thread indices when threads write to shared tables, and the float
arithmetic of the source is idealised as exact real arithmetic.  The
`thrust::sort_by_key` call is external library code and is modelled from
the spec's KeyValueSorter contract (see `sortByKey`).  All other
definitions are translated directly from src/kernel.cu.
-/

namespace Boids

/-! ### Configuration constants (kernel.cu lines 44-55) -/

/-- `#define rule1Distance 5.0f` -/
def rule1Distance : ℝ := 5

/-- `#define rule2Distance 3.0f` -/
def rule2Distance : ℝ := 3

/-- `#define rule3Distance 5.0f` -/
def rule3Distance : ℝ := 5

/-- `#define rule1Scale 0.01f` -/
noncomputable def rule1Scale : ℝ := 1 / 100

/-- `#define rule2Scale 0.1f` -/
noncomputable def rule2Scale : ℝ := 1 / 10

/-- `#define rule3Scale 0.1f` -/
noncomputable def rule3Scale : ℝ := 1 / 10

/-- `#define maxSpeed 1.0f` -/
def maxSpeed : ℝ := 1

/-- `#define scene_scale 100.0f` -/
def scene_scale : ℝ := 100

/-! ### glm::vec3, idealised over the reals -/

/-- A three-component vector, the embedding of `glm::vec3`. -/
@[ext]
structure Vec3 where
  x : ℝ
  y : ℝ
  z : ℝ

instance : Add Vec3 := ⟨fun a b => ⟨a.x + b.x, a.y + b.y, a.z + b.z⟩⟩

instance : Sub Vec3 := ⟨fun a b => ⟨a.x - b.x, a.y - b.y, a.z - b.z⟩⟩

/-- Scalar multiplication `v * c` / `c * v` of glm (componentwise). -/
def smul (c : ℝ) (v : Vec3) : Vec3 := ⟨c * v.x, c * v.y, c * v.z⟩

/-- Componentwise division of a vector by a scalar, `v / c` of glm. -/
noncomputable def vdiv (v : Vec3) (c : ℝ) : Vec3 := ⟨v.x / c, v.y / c, v.z / c⟩

/-- `glm::vec3(0.f)`. -/
def vzero : Vec3 := ⟨0, 0, 0⟩

/-- `glm::length(v)` = sqrt(dot(v, v)). -/
noncomputable def glmLength (v : Vec3) : ℝ :=
  Real.sqrt (v.x * v.x + v.y * v.y + v.z * v.z)

/-- `glm::normalize(v)` = v scaled by the inverse of its length. -/
noncomputable def glmNormalize (v : Vec3) : Vec3 :=
  smul (1 / glmLength v) v

/-- `glm::distance(a, b)` = length of the difference. -/
noncomputable def glmDistance (a b : Vec3) : ℝ := glmLength (b - a)

/-- The speed clamp shared verbatim by all three velocity kernels
(kernel.cu lines 317, 505-507, 609-611):
`glm::length(v) > maxSpeed ? glm::normalize(v) * maxSpeed : v`. -/
noncomputable def clampSpeed (v : Vec3) : Vec3 :=
  if glmLength v > maxSpeed then smul maxSpeed (glmNormalize v) else v

/-! ### Shared rule accumulation (computeVelocityChange, lines 263-300,
and the identical loop bodies at lines 474-487 and 578-591) -/

/-- The five accumulators threaded through a neighbor loop. -/
structure RuleAccum where
  perceived_center_rule1 : Vec3
  dodging_velocity_rule2 : Vec3
  cohesion_velocity_rule3 : Vec3
  neighbors_rule1 : ℝ
  neighbors_rule3 : ℝ

/-- All accumulators start at zero (`glm::vec3(0.f)`, `0.f`). -/
def RuleAccum.zero : RuleAccum := ⟨vzero, vzero, vzero, 0, 0⟩

/-- One neighbor candidate's contribution: the three distance tests and
accumulator updates, identical in all three variants. -/
noncomputable def ruleStep (iSelf_position on_pos on_vel : Vec3)
    (acc : RuleAccum) : RuleAccum :=
  let distance := glmDistance iSelf_position on_pos
  let acc1 := if distance < rule1Distance then
      { acc with perceived_center_rule1 := acc.perceived_center_rule1 + on_pos,
                 neighbors_rule1 := acc.neighbors_rule1 + 1 }
    else acc
  let acc2 := if distance < rule2Distance then
      { acc1 with dodging_velocity_rule2 :=
          acc1.dodging_velocity_rule2 + (iSelf_position - on_pos) }
    else acc1
  if distance < rule3Distance then
    { acc2 with cohesion_velocity_rule3 := acc2.cohesion_velocity_rule3 + on_vel,
                neighbors_rule3 := acc2.neighbors_rule3 + 1 }
  else acc2

/-- The "final updates before summing" block (lines 294-299 and the
identical blocks at 493-500 and 597-604). -/
noncomputable def finalizeRules (iSelf_position : Vec3) (acc : RuleAccum) : Vec3 :=
  let adhesion := if acc.neighbors_rule1 > 0 then
      smul rule1Scale (vdiv acc.perceived_center_rule1 acc.neighbors_rule1 - iSelf_position)
    else vzero
  let dodging := smul rule2Scale acc.dodging_velocity_rule2
  let cohesion := if acc.neighbors_rule3 > 0 then
      smul rule3Scale (vdiv acc.cohesion_velocity_rule3 acc.neighbors_rule3)
    else vzero
  adhesion + dodging + cohesion

/-- `computeVelocityChange` (lines 263-300): loop over all N boids,
skipping self. -/
noncomputable def computeVelocityChange (N : ℕ) (iSelf : ℕ)
    (pos vel : ℕ → Vec3) : Vec3 :=
  finalizeRules (pos iSelf)
    ((List.range N).foldl
      (fun acc on_index =>
        if on_index = iSelf then acc
        else ruleStep (pos iSelf) (pos on_index) (vel on_index) acc)
      RuleAccum.zero)

/-- `kernUpdateVelocityBruteForce` (lines 306-318): the next velocity of
boid `index`, written into vel2. -/
noncomputable def kernUpdateVelocityBruteForce (N : ℕ) (pos vel1 : ℕ → Vec3)
    (index : ℕ) : Vec3 :=
  clampSpeed (vel1 index + computeVelocityChange N index pos vel1)

/-! ### Position integration and wrap (kernUpdatePos, lines 324-343) -/

/-- One coordinate of the boundary wrap: first the `< -scene_scale`
replacement, then the `> scene_scale` replacement, in source order. -/
noncomputable def wrapCoord (c : ℝ) : ℝ :=
  let c1 := if c < -scene_scale then scene_scale else c
  if c1 > scene_scale then -scene_scale else c1

/-- The wrap applied to all three coordinates (the three replacements are
per-axis independent). -/
noncomputable def wrapPos (p : Vec3) : Vec3 :=
  ⟨wrapCoord p.x, wrapCoord p.y, wrapCoord p.z⟩

/-- `kernUpdatePos` for one boid: `thisPos += vel[index] * dt`, then wrap. -/
noncomputable def kernUpdatePosOne (dt : ℝ) (pos vel : ℕ → Vec3) (index : ℕ) : Vec3 :=
  wrapPos (pos index + smul dt (vel index))

/-! ### Grid parameters (Boids::initSimulation, lines 169-178) -/

/-- `gridCellWidth = 2.0f * std::max(std::max(rule1Distance, rule2Distance), rule3Distance)`. -/
noncomputable def gridCellWidth : ℝ :=
  2 * max (max rule1Distance rule2Distance) rule3Distance

/-- C/C++ float-to-int conversion: truncation toward zero. -/
noncomputable def truncToInt (r : ℝ) : ℤ :=
  if 0 ≤ r then ⌊r⌋ else -⌊-r⌋

/-- `int halfSideCount = (int)(scene_scale / gridCellWidth) + 1`. -/
noncomputable def halfSideCount : ℤ :=
  truncToInt (scene_scale / gridCellWidth) + 1

/-- `gridSideCount = 2 * halfSideCount`. -/
noncomputable def gridSideCount : ℤ := 2 * halfSideCount

/-- `gridCellCount = gridSideCount * gridSideCount * gridSideCount`. -/
noncomputable def gridCellCount : ℤ := gridSideCount * gridSideCount * gridSideCount

/-- `gridInverseCellWidth = 1.0f / gridCellWidth`. -/
noncomputable def gridInverseCellWidth : ℝ := 1 / gridCellWidth

/-- `halfGridWidth = gridCellWidth * halfSideCount`. -/
noncomputable def halfGridWidth : ℝ := gridCellWidth * (halfSideCount : ℝ)

/-- `gridMinimum` starts at the zero vector and has `halfGridWidth`
subtracted from each component. -/
noncomputable def gridMinimum : Vec3 :=
  ⟨0 - halfGridWidth, 0 - halfGridWidth, 0 - halfGridWidth⟩

/-- `gridIndex3Dto1D` (lines 351-353). -/
def gridIndex3Dto1D (x y z gridResolution : ℤ) : ℤ :=
  x + y * gridResolution + z * gridResolution * gridResolution

/-- The grid-cell index computed by `kernComputeIndices` (lines 355-374):
`glm::floor((pos[index] - gridMin) * inverseCellWidth)` flattened; the
launches pass the global grid parameters.  The parallel
`indices[index] = index` identity write is represented by pairing each
key with its index in `sortedPairs` below. -/
noncomputable def kernComputeGridIndex (pos : ℕ → Vec3) (index : ℕ) : ℤ :=
  gridIndex3Dto1D
    ⌊((pos index).x - gridMinimum.x) * gridInverseCellWidth⌋
    ⌊((pos index).y - gridMinimum.y) * gridInverseCellWidth⌋
    ⌊((pos index).z - gridMinimum.z) * gridInverseCellWidth⌋
    gridSideCount

/-! ### Key/value sort -/

/-- Comparison by grid-cell key for the key/value sort. -/
def keyLe (a b : ℤ × ℕ) : Prop := a.1 ≤ b.1

instance : DecidableRel keyLe := fun a b => inferInstanceAs (Decidable (a.1 ≤ b.1))

instance : IsTotal (ℤ × ℕ) keyLe := ⟨fun a b => le_total a.1 b.1⟩

instance : IsTrans (ℤ × ℕ) keyLe := ⟨fun _ _ _ h1 h2 => le_trans h1 h2⟩

/-- Modelled from the spec: `thrust::sort_by_key` is an external library
call (the sort implementation is not part of this repository), so the
KeyValueSorter is modelled per the spec's contract in section 4.3 as a
comparison sort of (gridCellIndex, permutationIndex) pairs by key
ascending; stability is not required. -/
def sortByKey (l : List (ℤ × ℕ)) : List (ℤ × ℕ) := l.insertionSort keyLe

/-- The sorted (particleGridIndices, particleArrayIndices) pairs of a
grid-variant step: keys from `kernComputeIndices`, values the identity
permutation, sorted by key. -/
noncomputable def sortedPairs (N : ℕ) (pos : ℕ → Vec3) : List (ℤ × ℕ) :=
  sortByKey ((List.range N).map (fun i => (kernComputeGridIndex pos i, i)))

/-- `dev_particleGridIndices` after the sort. -/
noncomputable def sortedGridKeys (N : ℕ) (pos : ℕ → Vec3) : ℕ → ℤ :=
  fun p => ((sortedPairs N pos).getD p (0, 0)).1

/-- `dev_particleArrayIndices` after the sort. -/
noncomputable def sortedArrayIndices (N : ℕ) (pos : ℕ → Vec3) : ℕ → ℕ :=
  fun p => ((sortedPairs N pos).getD p (0, 0)).2

/-! ### Cell range tables -/

/-- The pair of `dev_gridCellStartIndices` / `dev_gridCellEndIndices`
buffers, as functions from cell index to stored value. -/
structure CellTables where
  cellStart : ℤ → ℤ
  cellEnd : ℤ → ℤ

/-- Pointwise update of an int buffer. -/
def updateAt (f : ℤ → ℤ) (k v : ℤ) : ℤ → ℤ :=
  fun c => if c = k then v else f c

/-- `kernResetIntBuffer` (lines 378-383) launched over `n` threads: each
thread with `index < n` writes `value`; entries at or beyond `n` keep
their previous contents. -/
def kernResetIntBufferAll (n : ℕ) (value : ℤ) (intBuffer : ℤ → ℤ) : ℤ → ℤ :=
  fun index => if 0 ≤ index ∧ index < (n : ℤ) then value else intBuffer index

/-- The two reset launches in the grid-variant steps (lines 649-652 and
694-695): both are launched with `numObjects` threads, writing -1. -/
def resetCellTables (numObjects : ℕ) (cs ce : ℤ → ℤ) : CellTables :=
  ⟨kernResetIntBufferAll numObjects (-1) cs, kernResetIntBufferAll numObjects (-1) ce⟩

/-- One thread of `kernIdentifyCellStartEnd` (lines 385-414).  Note the
early `return` for `particle_index == 0`, which skips both the boundary
case and the `particle_index == N - 1` ending case. -/
def identifyStep (particleGridIndices : ℕ → ℤ) (N : ℕ)
    (t : CellTables) (particle_index : ℕ) : CellTables :=
  let current_grid_index := particleGridIndices particle_index
  if particle_index = 0 then
    { t with cellStart := updateAt t.cellStart current_grid_index 0 }
  else
    let previous_grid_index := particleGridIndices (particle_index - 1)
    let t1 := if current_grid_index ≠ previous_grid_index then
        { cellStart := updateAt t.cellStart current_grid_index (particle_index : ℤ),
          cellEnd := updateAt t.cellEnd previous_grid_index (particle_index : ℤ) }
      else t
    if particle_index = N - 1 then
      { t1 with cellEnd := updateAt t1.cellEnd current_grid_index (N : ℤ) }
    else t1

/-- `kernIdentifyCellStartEnd` launched over N threads.  Distinct threads
write distinct table entries when the keys are sorted, so the parallel
launch is modelled as a fold over the thread indices. -/
def kernIdentifyCellStartEnd (particleGridIndices : ℕ → ℤ) (N : ℕ)
    (t0 : CellTables) : CellTables :=
  (List.range N).foldl (identifyStep particleGridIndices N) t0

/-- The table-building prefix shared by both grid-variant steps:
compute indices, sort, reset with `numObjects` threads, then identify. -/
noncomputable def stepCellTables (N : ℕ) (pos : ℕ → Vec3) (cs ce : ℤ → ℤ) : CellTables :=
  kernIdentifyCellStartEnd (sortedGridKeys N pos) N (resetCellTables N cs ce)

/-! ### Grid-variant neighbor search (lines 416-508 and 520-612) -/

/-- `glm::max(rule1Distance, glm::max(rule2Distance, rule3Distance))`
(lines 433 and 538). -/
noncomputable def maxRuleDistance : ℝ :=
  max rule1Distance (max rule2Distance rule3Distance)

/-- `glm::clamp(x, lo, hi)` on one float. -/
noncomputable def clampR (x lo hi : ℝ) : ℝ := min (max x lo) hi

/-- The clamped candidate-cell bounding box of one boid. -/
structure CellBox where
  xmin : ℤ
  xmax : ℤ
  ymin : ℤ
  ymax : ℤ
  zmin : ℤ
  zmax : ℤ

/-- The candidate-cell bounds computation appearing verbatim in both grid
kernels (lines 430-444 and 535-549): the cell-coordinate box of
`position ± maxRuleDistance`, clamped to `[0, gridResolution]` (inclusive
upper bound), then converted to ints (C truncation). -/
noncomputable def candidateBox (particle_position : Vec3) : CellBox :=
  let zeroed := particle_position - gridMinimum
  { xmin := truncToInt (clampR ((zeroed.x - maxRuleDistance) * gridInverseCellWidth) 0 (gridSideCount : ℝ)),
    xmax := truncToInt (clampR ((zeroed.x + maxRuleDistance) * gridInverseCellWidth) 0 (gridSideCount : ℝ)),
    ymin := truncToInt (clampR ((zeroed.y - maxRuleDistance) * gridInverseCellWidth) 0 (gridSideCount : ℝ)),
    ymax := truncToInt (clampR ((zeroed.y + maxRuleDistance) * gridInverseCellWidth) 0 (gridSideCount : ℝ)),
    zmin := truncToInt (clampR ((zeroed.z - maxRuleDistance) * gridInverseCellWidth) 0 (gridSideCount : ℝ)),
    zmax := truncToInt (clampR ((zeroed.z + maxRuleDistance) * gridInverseCellWidth) 0 (gridSideCount : ℝ)) }

/-- The integers from `lo` to `hi` inclusive, in order (a C for-loop
`for (v = lo; v <= hi; ++v)`). -/
def intRangeIncl (lo hi : ℤ) : List ℤ :=
  (List.range (hi + 1 - lo).toNat).map (fun k : ℕ => lo + (k : ℤ))

/-- The indices `b` of the inner loop `for (b = start; b < end; ++b)`. -/
def cellRangeList (start_boid_index end_boid_index : ℤ) : List ℤ :=
  (List.range (end_boid_index - start_boid_index).toNat).map
    (fun k : ℕ => start_boid_index + (k : ℤ))

/-- The flattened candidate-cell indices iterated by the triple loop
(z outer, then y, then x; lines 456-459 and 561-564). -/
noncomputable def candidateCells (particle_position : Vec3) : List ℤ :=
  let b := candidateBox particle_position
  (intRangeIncl b.zmin b.zmax).flatMap fun z =>
    (intRangeIncl b.ymin b.ymax).flatMap fun y =>
      (intRangeIncl b.xmin b.xmax).map fun x =>
        gridIndex3Dto1D x y z gridSideCount

/-- The defensive skip test on a cell's range (lines 464-466 and 569-571):
`start < 0 || start >= N || end < 0 || end >= N`. -/
def skipCellRange (N : ℕ) (start_boid_index end_boid_index : ℤ) : Bool :=
  decide (start_boid_index < 0) || decide (start_boid_index ≥ (N : ℤ)) ||
    decide (end_boid_index < 0) || decide (end_boid_index ≥ (N : ℤ))

/-- Modelled from the spec's words, for comparison with `skipCellRange`:
the claimed invalid-range condition "start < 0, or start or end outside
the closed interval [0, N]". -/
def specInvalidRange (N : ℕ) (start_boid_index end_boid_index : ℤ) : Bool :=
  decide (start_boid_index < 0) || decide (start_boid_index > (N : ℤ)) ||
    decide (end_boid_index < 0) || decide (end_boid_index > (N : ℤ))

/-- The scattered variant's inner loop over one cell's range (lines
468-488): resolve `on_boid` through `particleArrayIndices`, skip self by
original index, accumulate. -/
noncomputable def cellLoopScattered (particleArrayIndices : ℕ → ℕ)
    (pos vel1 : ℕ → Vec3) (particle_index : ℕ) (particle_position : Vec3)
    (acc : RuleAccum) (bs : List ℤ) : RuleAccum :=
  bs.foldl
    (fun a b =>
      let on_boid := particleArrayIndices b.toNat
      if on_boid = particle_index then a
      else ruleStep particle_position (pos on_boid) (vel1 on_boid) a)
    acc

/-- The coherent variant's inner loop over one cell's range (lines
573-592): boids are addressed directly by sorted slot `b`, and self is
skipped by comparing slot indices. -/
noncomputable def cellLoopCoherent (pos vel1 : ℕ → Vec3)
    (particle_index : ℕ) (particle_position : Vec3)
    (acc : RuleAccum) (bs : List ℤ) : RuleAccum :=
  bs.foldl
    (fun a b =>
      if b = (particle_index : ℤ) then a
      else ruleStep particle_position (pos b.toNat) (vel1 b.toNat) a)
    acc

/-- One candidate cell of the scattered search: fetch the range, apply the
defensive skip, else run the inner loop. -/
noncomputable def scatteredCellStep (N : ℕ) (t : CellTables)
    (particleArrayIndices : ℕ → ℕ) (pos vel1 : ℕ → Vec3)
    (particle_index : ℕ) (particle_position : Vec3)
    (acc : RuleAccum) (c : ℤ) : RuleAccum :=
  let start_boid_index := t.cellStart c
  let end_boid_index := t.cellEnd c
  if skipCellRange N start_boid_index end_boid_index then acc
  else cellLoopScattered particleArrayIndices pos vel1 particle_index
    particle_position acc (cellRangeList start_boid_index end_boid_index)

/-- One candidate cell of the coherent search. -/
noncomputable def coherentCellStep (N : ℕ) (t : CellTables)
    (pos vel1 : ℕ → Vec3) (particle_index : ℕ) (particle_position : Vec3)
    (acc : RuleAccum) (c : ℤ) : RuleAccum :=
  let start_boid_index := t.cellStart c
  let end_boid_index := t.cellEnd c
  if skipCellRange N start_boid_index end_boid_index then acc
  else cellLoopCoherent pos vel1 particle_index particle_position acc
    (cellRangeList start_boid_index end_boid_index)

/-- `kernUpdateVelNeighborSearchScattered` (lines 416-508) for one boid. -/
noncomputable def kernUpdateVelNeighborSearchScattered (N : ℕ) (t : CellTables)
    (particleArrayIndices : ℕ → ℕ) (pos vel1 : ℕ → Vec3)
    (particle_index : ℕ) : Vec3 :=
  let particle_position := pos particle_index
  let acc := (candidateCells particle_position).foldl
    (scatteredCellStep N t particleArrayIndices pos vel1 particle_index
      particle_position)
    RuleAccum.zero
  clampSpeed (vel1 particle_index + finalizeRules particle_position acc)

/-- `kernUpdateVelNeighborSearchCoherent` (lines 520-612) for one boid. -/
noncomputable def kernUpdateVelNeighborSearchCoherent (N : ℕ) (t : CellTables)
    (pos vel1 : ℕ → Vec3) (particle_index : ℕ) : Vec3 :=
  let particle_position := pos particle_index
  let acc := (candidateCells particle_position).foldl
    (coherentCellStep N t pos vel1 particle_index particle_position)
    RuleAccum.zero
  clampSpeed (vel1 particle_index + finalizeRules particle_position acc)

/-- `kernShuffleBuffer` (lines 510-518) composed with the `cudaMemcpy`
back into the original buffer (lines 708-709): slots below N hold the
gathered data, slots at or beyond N keep the old contents. -/
noncomputable def kernShuffleBuffer (N : ℕ) (particleArrayIndices : ℕ → ℕ)
    (original_ordering : ℕ → Vec3) : ℕ → Vec3 :=
  fun p => if p < N then original_ordering (particleArrayIndices p)
    else original_ordering p

/-! ### The step functions (lines 617-724) -/

/-- The simulation state: boid arrays and the persistent cell tables
(device buffers live across steps). -/
structure BoidsState where
  pos : ℕ → Vec3
  vel1 : ℕ → Vec3
  cellStart : ℤ → ℤ
  cellEnd : ℤ → ℤ

/-- `Boids::stepSimulationNaive` (lines 617-627): brute-force velocity
update into vel2, position update reading `dev_vel1` (the old
velocities), then the memcpy promoting vel2 to vel1 for the first
`numObjects` entries. -/
noncomputable def stepSimulationNaive (N : ℕ) (dt : ℝ) (s : BoidsState) : BoidsState :=
  { pos := fun i => if i < N then kernUpdatePosOne dt s.pos s.vel1 i else s.pos i,
    vel1 := fun i => if i < N then kernUpdateVelocityBruteForce N s.pos s.vel1 i else s.vel1 i,
    cellStart := s.cellStart,
    cellEnd := s.cellEnd }

/-- `Boids::stepSimulationScatteredGrid` (lines 629-671): indices, sort,
reset (with `numObjects` threads), identify, scattered neighbor search
into vel2, position update reading `dev_vel1`, memcpy vel2 to vel1. -/
noncomputable def stepSimulationScatteredGrid (N : ℕ) (dt : ℝ) (s : BoidsState) : BoidsState :=
  let t := stepCellTables N s.pos s.cellStart s.cellEnd
  let arrId := sortedArrayIndices N s.pos
  { pos := fun i => if i < N then kernUpdatePosOne dt s.pos s.vel1 i else s.pos i,
    vel1 := fun i => if i < N then kernUpdateVelNeighborSearchScattered N t arrId s.pos s.vel1 i else s.vel1 i,
    cellStart := t.cellStart,
    cellEnd := t.cellEnd }

/-- `Boids::stepSimulationCoherentGrid` (lines 673-724): indices, sort,
reset, identify, shuffle pos/vel1 into sorted order (copied back into the
primary buffers), coherent neighbor search into vel2, position update
reading the shuffled `dev_vel1`, memcpy vel2 to vel1. -/
noncomputable def stepSimulationCoherentGrid (N : ℕ) (dt : ℝ) (s : BoidsState) : BoidsState :=
  let t := stepCellTables N s.pos s.cellStart s.cellEnd
  let arrId := sortedArrayIndices N s.pos
  let shufPos := kernShuffleBuffer N arrId s.pos
  let shufVel1 := kernShuffleBuffer N arrId s.vel1
  { pos := fun i => if i < N then kernUpdatePosOne dt shufPos shufVel1 i else shufPos i,
    vel1 := fun i => if i < N then kernUpdateVelNeighborSearchCoherent N t shufPos shufVel1 i else shufVel1 i,
    cellStart := t.cellStart,
    cellEnd := t.cellEnd }

/-! ### Concrete states used for counterexamples and witnesses -/

/-- Two boids at the origin: boid 1 has velocity (1,0,0), boid 0 is at
rest; the cell tables hold the empty-cell sentinel everywhere. -/
noncomputable def twoBoidState : BoidsState :=
  { pos := fun _ => ⟨0, 0, 0⟩,
    vel1 := fun i => if i = 1 then ⟨1, 0, 0⟩ else ⟨0, 0, 0⟩,
    cellStart := fun _ => -1,
    cellEnd := fun _ => -1 }

/-- One boid at the origin moving at speed 2 (above maxSpeed). -/
noncomputable def fastBoidState : BoidsState :=
  { pos := fun _ => ⟨0, 0, 0⟩,
    vel1 := fun _ => ⟨2, 0, 0⟩,
    cellStart := fun _ => -1,
    cellEnd := fun _ => -1 }

/-! ### Componentwise lemmas for the vector operations -/

@[simp] theorem add_x (a b : Vec3) : (a + b).x = a.x + b.x := rfl

@[simp] theorem add_y (a b : Vec3) : (a + b).y = a.y + b.y := rfl

@[simp] theorem add_z (a b : Vec3) : (a + b).z = a.z + b.z := rfl

@[simp] theorem sub_x (a b : Vec3) : (a - b).x = a.x - b.x := rfl

@[simp] theorem sub_y (a b : Vec3) : (a - b).y = a.y - b.y := rfl

@[simp] theorem sub_z (a b : Vec3) : (a - b).z = a.z - b.z := rfl

@[simp] theorem smul_x (c : ℝ) (v : Vec3) : (smul c v).x = c * v.x := rfl

@[simp] theorem smul_y (c : ℝ) (v : Vec3) : (smul c v).y = c * v.y := rfl

@[simp] theorem smul_z (c : ℝ) (v : Vec3) : (smul c v).z = c * v.z := rfl

@[simp] theorem vdiv_x (v : Vec3) (c : ℝ) : (vdiv v c).x = v.x / c := rfl

@[simp] theorem vdiv_y (v : Vec3) (c : ℝ) : (vdiv v c).y = v.y / c := rfl

@[simp] theorem vdiv_z (v : Vec3) (c : ℝ) : (vdiv v c).z = v.z / c := rfl

@[simp] theorem vzero_x : vzero.x = 0 := rfl

@[simp] theorem vzero_y : vzero.y = 0 := rfl

@[simp] theorem vzero_z : vzero.z = 0 := rfl

/-! ### Numeric values of the grid parameters -/

theorem floor_eq_of (r : ℝ) (n : ℤ) (h1 : (n : ℝ) ≤ r) (h2 : r < n + 1) :
    ⌊r⌋ = n :=
  Int.floor_eq_iff.mpr ⟨h1, h2⟩

theorem truncToInt_of_nonneg (r : ℝ) (h : 0 ≤ r) : truncToInt r = ⌊r⌋ :=
  if_pos h

theorem gridCellWidth_eq : gridCellWidth = 10 := by
  rw [gridCellWidth, rule1Distance, rule2Distance, rule3Distance]
  rw [max_eq_left (by norm_num : (3 : ℝ) ≤ 5), max_self]
  norm_num

theorem gridInverseCellWidth_eq : gridInverseCellWidth = 1 / 10 := by
  rw [gridInverseCellWidth, gridCellWidth_eq]

theorem halfSideCount_eq : halfSideCount = 11 := by
  rw [halfSideCount, scene_scale, gridCellWidth_eq,
    truncToInt_of_nonneg _ (by norm_num),
    floor_eq_of _ 10 (by norm_num) (by norm_num)]
  norm_num

theorem gridSideCount_eq : gridSideCount = 22 := by
  rw [gridSideCount, halfSideCount_eq]; norm_num

theorem gridCellCount_eq : gridCellCount = 10648 := by
  rw [gridCellCount, gridSideCount_eq]; norm_num

theorem halfGridWidth_eq : halfGridWidth = 110 := by
  rw [halfGridWidth, gridCellWidth_eq, halfSideCount_eq]; norm_num

theorem gridMinimum_eq : gridMinimum = ⟨-110, -110, -110⟩ := by
  rw [gridMinimum, halfGridWidth_eq]; norm_num

theorem maxRuleDistance_eq : maxRuleDistance = 5 := by
  rw [maxRuleDistance, rule1Distance, rule2Distance, rule3Distance]
  rw [max_eq_right (by norm_num : (3 : ℝ) ≤ 5), max_self]

/-! ### Claim theorems -/

/-- Claim C2 is violated by the code: the range `[0, 1)` of the single
occupied cell at N = 1 ends exactly at N, which the claim calls a valid,
fully-iterated range, yet the kernels' skip test `start < 0 || start >= N
|| end < 0 || end >= N` fires on it.  `specInvalidRange` transcribes the
claim's own invalidity condition for comparison. -/
theorem skipCellRange_fires_on_last_cell :
    skipCellRange 1 0 1 = true ∧ specInvalidRange 1 0 1 = false := by
  decide

/-- Claim C3 is violated by the code, witnessed at N = 1 with a stale
table value 7 and the single boid in cell 5577: the reset launch only
covers `numObjects` = 1 of the `gridCellCount` = 10648 entries (entry
5577 keeps the stale 7), and `kernIdentifyCellStartEnd`'s thread 0
returns before the `particle_index == N - 1` case, so the occupied
cell's end is never written and its range is not `[0, 1)`. -/
theorem identify_leaves_stale_entries :
    kernResetIntBufferAll 1 (-1) (fun _ => 7) 5577 = 7 ∧
    (kernIdentifyCellStartEnd (fun _ => 5577) 1
      (resetCellTables 1 (fun _ => 7) (fun _ => 7))).cellStart 5577 = 0 ∧
    (kernIdentifyCellStartEnd (fun _ => 5577) 1
      (resetCellTables 1 (fun _ => 7) (fun _ => 7))).cellEnd 5577 = 7 ∧
    gridCellCount = 10648 := by
  refine ⟨by decide, by decide, by decide, gridCellCount_eq⟩

/-- Each wrapped coordinate lies in [-scene_scale, scene_scale]. -/
theorem wrapCoord_mem (c : ℝ) :
    -scene_scale ≤ wrapCoord c ∧ wrapCoord c ≤ scene_scale := by
  simp only [wrapCoord, scene_scale]
  split_ifs <;> constructor <;> norm_num <;> linarith

/-- Claim C10: after `kernUpdatePos`, every position component lies in
`[-scene_scale, scene_scale]`, for any input position, velocity and dt:
the two sequential per-axis replacements cannot leave the scene bounds. -/
theorem kernUpdatePos_in_bounds (dt : ℝ) (pos vel : ℕ → Vec3) (index : ℕ) :
    (-scene_scale ≤ (kernUpdatePosOne dt pos vel index).x ∧
      (kernUpdatePosOne dt pos vel index).x ≤ scene_scale) ∧
    (-scene_scale ≤ (kernUpdatePosOne dt pos vel index).y ∧
      (kernUpdatePosOne dt pos vel index).y ≤ scene_scale) ∧
    (-scene_scale ≤ (kernUpdatePosOne dt pos vel index).z ∧
      (kernUpdatePosOne dt pos vel index).z ≤ scene_scale) :=
  ⟨wrapCoord_mem _, wrapCoord_mem _, wrapCoord_mem _⟩

/-- Claim C5 is violated by the code: a coordinate that overshoots the
positive boundary by ε = 1 is stored as exactly `-scene_scale`, not
`-scene_scale + ε` as the claim states — the overshoot is discarded. -/
theorem wrapCoord_overshoot_lost :
    wrapCoord (scene_scale + 1) = -scene_scale ∧
      (-scene_scale : ℝ) ≠ -scene_scale + 1 := by
  constructor
  · simp only [wrapCoord, scene_scale]
    norm_num
  · norm_num

/-- Claim C5 amended: a coordinate component that exceeds `scene_scale`
after integration is replaced by exactly `-scene_scale` (and
symmetrically at the negative face by exactly `+scene_scale`): a hard
teleport to the opposite face that discards the overshoot. -/
theorem wrapCoord_teleports_to_face (eps : ℝ) (heps : 0 < eps) :
    wrapCoord (scene_scale + eps) = -scene_scale ∧
      wrapCoord (-scene_scale - eps) = scene_scale := by
  refine ⟨?_, ?_⟩ <;> simp only [wrapCoord, scene_scale] <;> split_ifs <;> linarith

/-- Witness for the amended C5 theorem at eps = 1. -/
theorem wrapCoord_teleports_to_face_witness :
    (0 : ℝ) < 1 ∧ (wrapCoord (scene_scale + 1) = -scene_scale ∧
      wrapCoord (-scene_scale - 1) = scene_scale) :=
  ⟨by norm_num, wrapCoord_teleports_to_face 1 (by norm_num)⟩

/-- Claim C7: after the key/value sort of a grid-variant step, the
grid-cell keys are non-decreasing and the permutation values are exactly
a permutation of 0..N-1, for every N and every position array. -/
theorem sortedPairs_sorted_and_perm (N : ℕ) (pos : ℕ → Vec3) :
    ((sortedPairs N pos).map Prod.fst).Sorted (· ≤ ·) ∧
    List.Perm ((sortedPairs N pos).map Prod.snd) (List.range N) := by
  constructor
  · have hs := List.sorted_insertionSort keyLe
      ((List.range N).map (fun i => (kernComputeGridIndex pos i, i)))
    exact List.Pairwise.map Prod.fst (fun a b h => h) hs
  · have hp := List.perm_insertionSort keyLe
      ((List.range N).map (fun i => (kernComputeGridIndex pos i, i)))
    have hmap := hp.map Prod.snd
    rw [List.map_map] at hmap
    have hid : (Prod.snd ∘ fun i => (kernComputeGridIndex pos i, i)) = fun i : ℕ => i := rfl
    rw [hid] at hmap
    simp only [sortedPairs, sortByKey]
    simpa using hmap

/-- A fold whose body skips elements satisfying `p` equals the fold over
the list with those elements filtered out. -/
theorem foldl_branch_skip {α β : Type} (p : α → Prop) [DecidablePred p]
    (f : β → α → β) (l : List α) (b : β) :
    l.foldl (fun acc a => if p a then acc else f acc a) b =
      (l.filter (fun a => ¬ p a)).foldl f b := by
  induction l generalizing b with
  | nil => rfl
  | cons a l ih => by_cases hp : p a <;> simp [hp, ih]

/-- Claim C9: in all three variants the agent itself never contributes to
any rule accumulator: each neighbor loop equals the same loop over the
candidate list with self filtered out — by original index in the naive
and scattered variants, and by sorted slot index in the coherent
variant. -/
theorem self_excluded_all_variants (N iSelf : ℕ) (pos vel : ℕ → Vec3)
    (particleArrayIndices : ℕ → ℕ) (particle_index : ℕ)
    (particle_position : Vec3) (acc : RuleAccum) (bs : List ℤ) :
    computeVelocityChange N iSelf pos vel =
      finalizeRules (pos iSelf)
        (((List.range N).filter (fun j => ¬ j = iSelf)).foldl
          (fun a j => ruleStep (pos iSelf) (pos j) (vel j) a) RuleAccum.zero) ∧
    cellLoopScattered particleArrayIndices pos vel particle_index
        particle_position acc bs =
      (bs.filter (fun b => ¬ particleArrayIndices b.toNat = particle_index)).foldl
        (fun a b => ruleStep particle_position (pos (particleArrayIndices b.toNat))
          (vel (particleArrayIndices b.toNat)) a) acc ∧
    cellLoopCoherent pos vel particle_index particle_position acc bs =
      (bs.filter (fun b => ¬ b = (particle_index : ℤ))).foldl
        (fun a b => ruleStep particle_position (pos b.toNat) (vel b.toNat) a) acc := by
  refine ⟨?_, ?_, ?_⟩
  · unfold computeVelocityChange
    rw [foldl_branch_skip (fun j => j = iSelf)]
  · unfold cellLoopScattered
    rw [foldl_branch_skip (fun b : ℤ => particleArrayIndices b.toNat = particle_index)]
  · unfold cellLoopCoherent
    rw [foldl_branch_skip (fun b : ℤ => b = (particle_index : ℤ))]

/-- Membership in an inclusive integer range list. -/
theorem mem_intRangeIncl {lo hi c : ℤ} :
    c ∈ intRangeIncl lo hi ↔ lo ≤ c ∧ c ≤ hi := by
  rw [intRangeIncl, List.mem_map]
  constructor
  · rintro ⟨k, hk, rfl⟩
    rw [List.mem_range] at hk
    omega
  · rintro ⟨h1, h2⟩
    refine ⟨(c - lo).toNat, ?_, by omega⟩
    rw [List.mem_range]
    omega

/-- Truncation of a value clamped from 0 up to `n` exactly. -/
theorem truncToInt_eq (r : ℝ) (n : ℤ) (h0 : 0 ≤ r) (h1 : (n : ℝ) ≤ r)
    (h2 : r < n + 1) : truncToInt r = n := by
  rw [truncToInt_of_nonneg _ h0]
  exact floor_eq_of r n h1 h2

/-- A value clamped to `[0, hi]` truncates to a nonnegative integer. -/
theorem truncToInt_clamp_nonneg (v hi : ℝ) (hhi : 0 ≤ hi) :
    0 ≤ truncToInt (clampR v 0 hi) := by
  have h0 : 0 ≤ clampR v 0 hi := le_min (le_max_right v 0) hhi
  rw [truncToInt_of_nonneg _ h0]
  exact Int.floor_nonneg.mpr h0

/-- If the unclamped value is below `b + 1`, the truncated clamp is at
most `b`. -/
theorem truncToInt_clamp_le (v hi : ℝ) (b : ℤ) (hhi : 0 ≤ hi) (hb : 0 ≤ b)
    (hv : v < (b : ℝ) + 1) : truncToInt (clampR v 0 hi) ≤ b := by
  have h0 : 0 ≤ clampR v 0 hi := le_min (le_max_right v 0) hhi
  rw [truncToInt_of_nonneg _ h0]
  have hbr : (0 : ℝ) ≤ (b : ℝ) := by exact_mod_cast hb
  have hlt : clampR v 0 hi < ((b + 1 : ℤ) : ℝ) := by
    have hm : clampR v 0 hi ≤ max v 0 := min_le_left _ _
    have : max v 0 < (b : ℝ) + 1 := max_lt hv (by linarith)
    push_cast
    linarith
  have := Int.floor_lt.mpr hlt
  omega

/-- Claim C6: for every agent position inside the scene bounds (all
positions reachable under the wrap policy), every flattened candidate
cell index produced by the clamped bounding-box loops lies inside
`[0, gridCellCount)`, so the start/end table reads never go out of
bounds. -/
theorem candidate_cells_within_table (p : Vec3)
    (hx1 : -scene_scale ≤ p.x) (hx2 : p.x ≤ scene_scale)
    (hy1 : -scene_scale ≤ p.y) (hy2 : p.y ≤ scene_scale)
    (hz1 : -scene_scale ≤ p.z) (hz2 : p.z ≤ scene_scale) :
    ∀ c ∈ candidateCells p, 0 ≤ c ∧ c < gridCellCount := by
  intro c hc
  rw [scene_scale] at hx1 hx2 hy1 hy2 hz1 hz2
  simp only [candidateCells, List.mem_flatMap, List.mem_map] at hc
  obtain ⟨z, hz, y, hy, x, hx, rfl⟩ := hc
  rw [mem_intRangeIncl] at hz hy hx
  simp only [candidateBox, gridMinimum_eq, maxRuleDistance_eq,
    gridInverseCellWidth_eq, gridSideCount_eq, sub_x, sub_y, sub_z] at hz hy hx
  have hb22 : (0 : ℝ) ≤ ((22 : ℤ) : ℝ) := by norm_num
  have hxl : 0 ≤ x := le_trans (truncToInt_clamp_nonneg _ _ hb22) hx.1
  have hyl : 0 ≤ y := le_trans (truncToInt_clamp_nonneg _ _ hb22) hy.1
  have hzl : 0 ≤ z := le_trans (truncToInt_clamp_nonneg _ _ hb22) hz.1
  have hxu : x ≤ 21 := le_trans hx.2
    (truncToInt_clamp_le _ _ 21 hb22 (by norm_num) (by push_cast; nlinarith))
  have hyu : y ≤ 21 := le_trans hy.2
    (truncToInt_clamp_le _ _ 21 hb22 (by norm_num) (by push_cast; nlinarith))
  have hzu : z ≤ 21 := le_trans hz.2
    (truncToInt_clamp_le _ _ 21 hb22 (by norm_num) (by push_cast; nlinarith))
  rw [gridIndex3Dto1D, gridSideCount_eq, gridCellCount_eq]
  omega

/-- The candidate-cell box of a boid at the origin. -/
theorem candidateBox_origin :
    candidateBox ⟨0, 0, 0⟩ = ⟨10, 11, 10, 11, 10, 11⟩ := by
  have hmin : truncToInt (clampR ((0 - (-110 : ℝ) - 5) * (1 / 10)) 0 ((22 : ℤ) : ℝ)) = 10 := by
    have : clampR ((0 - (-110 : ℝ) - 5) * (1 / 10)) 0 ((22 : ℤ) : ℝ) = 21 / 2 := by
      rw [clampR]
      rw [max_eq_left (by norm_num), min_eq_left (by push_cast; norm_num)]
      norm_num
    rw [this]
    exact truncToInt_eq _ 10 (by norm_num) (by norm_num) (by norm_num)
  have hmax : truncToInt (clampR ((0 - (-110 : ℝ) + 5) * (1 / 10)) 0 ((22 : ℤ) : ℝ)) = 11 := by
    have : clampR ((0 - (-110 : ℝ) + 5) * (1 / 10)) 0 ((22 : ℤ) : ℝ) = 23 / 2 := by
      rw [clampR]
      rw [max_eq_left (by norm_num), min_eq_left (by push_cast; norm_num)]
      norm_num
    rw [this]
    exact truncToInt_eq _ 11 (by norm_num) (by norm_num) (by norm_num)
  simp only [candidateBox, gridMinimum_eq, maxRuleDistance_eq,
    gridInverseCellWidth_eq, gridSideCount_eq, sub_x, sub_y, sub_z, hmin, hmax]

/-- The flattened candidate cells of a boid at the origin. -/
theorem candidateCells_origin :
    candidateCells ⟨0, 0, 0⟩ = [5070, 5071, 5092, 5093, 5554, 5555, 5576, 5577] := by
  simp only [candidateCells, candidateBox_origin, gridSideCount_eq]
  decide

/-- Witness for C6 at the origin and candidate cell 5577. -/
theorem candidate_cells_within_table_witness :
    (-scene_scale ≤ (0 : ℝ) ∧ (0 : ℝ) ≤ scene_scale ∧
      (5577 : ℤ) ∈ candidateCells ⟨0, 0, 0⟩) ∧
    (0 ≤ (5577 : ℤ) ∧ (5577 : ℤ) < gridCellCount) := by
  have hmem : (5577 : ℤ) ∈ candidateCells ⟨0, 0, 0⟩ := by
    rw [candidateCells_origin]
    decide
  refine ⟨⟨by norm_num [scene_scale], by norm_num [scene_scale], hmem⟩, ?_⟩
  exact candidate_cells_within_table ⟨0, 0, 0⟩
    (by norm_num [scene_scale]) (by norm_num [scene_scale])
    (by norm_num [scene_scale]) (by norm_num [scene_scale])
    (by norm_num [scene_scale]) (by norm_num [scene_scale]) 5577 hmem

/-- Composition of scalar multiplications. -/
theorem smul_comp (a b : ℝ) (v : Vec3) : smul a (smul b v) = smul (a * b) v := by
  ext <;> simp [smul] <;> ring

/-- The length of a scaled vector. -/
theorem glmLength_smul (c : ℝ) (v : Vec3) :
    glmLength (smul c v) = |c| * glmLength v := by
  simp only [glmLength, smul_x, smul_y, smul_z]
  rw [show c * v.x * (c * v.x) + c * v.y * (c * v.y) + c * v.z * (c * v.z)
      = c ^ 2 * (v.x * v.x + v.y * v.y + v.z * v.z) by ring]
  rw [Real.sqrt_mul (sq_nonneg c), Real.sqrt_sq_eq_abs]

/-- Claim C8: the stored next-velocity of any agent whose combined
velocity exceeds `maxSpeed` has magnitude exactly `maxSpeed` and the
same unit direction as the unclamped vector; a combined velocity of
magnitude at most `maxSpeed` is stored unchanged.  All three variants
store `clampSpeed` of their combined velocity by definition
(`kernUpdateVelocityBruteForce`, `kernUpdateVelNeighborSearchScattered`,
`kernUpdateVelNeighborSearchCoherent`). -/
theorem clampSpeed_exact (v : Vec3) :
    (glmLength v > maxSpeed →
      glmLength (clampSpeed v) = maxSpeed ∧
        glmNormalize (clampSpeed v) = glmNormalize v) ∧
    (glmLength v ≤ maxSpeed → clampSpeed v = v) := by
  constructor
  · intro h
    have hL : 0 < glmLength v := lt_trans (by norm_num [maxSpeed]) h
    have hcl : clampSpeed v = smul (maxSpeed * (1 / glmLength v)) v := by
      rw [clampSpeed, if_pos h, glmNormalize, smul_comp]
    have hlen : glmLength (clampSpeed v) = maxSpeed := by
      rw [hcl, glmLength_smul, abs_of_pos (by rw [maxSpeed]; positivity)]
      rw [maxSpeed]
      field_simp
    refine ⟨hlen, ?_⟩
    have hnorm : glmNormalize (clampSpeed v) =
        smul ((1 / maxSpeed) * (maxSpeed * (1 / glmLength v))) v := by
      rw [glmNormalize, hlen, hcl, smul_comp]
    rw [hnorm, glmNormalize]
    congr 1
    rw [maxSpeed]
    norm_num
  · intro h
    rw [clampSpeed, if_neg (not_lt.mpr h)]

/-- Witness for C8 at the concrete vector (3, 0, 0). -/
theorem clampSpeed_exact_witness :
    glmLength ⟨3, 0, 0⟩ > maxSpeed ∧
      glmLength (clampSpeed ⟨3, 0, 0⟩) = maxSpeed ∧
        glmNormalize (clampSpeed ⟨3, 0, 0⟩) = glmNormalize ⟨3, 0, 0⟩ := by
  have h3 : glmLength ⟨3, 0, 0⟩ = 3 := by
    simp only [glmLength]
    rw [show (3 : ℝ) * 3 + 0 * 0 + 0 * 0 = 3 ^ 2 by norm_num,
      Real.sqrt_sq (by norm_num)]
  have hgt : glmLength ⟨3, 0, 0⟩ > maxSpeed := by
    rw [h3, maxSpeed]
    norm_num
  exact ⟨hgt, ((clampSpeed_exact ⟨3, 0, 0⟩).1 hgt).1,
    ((clampSpeed_exact ⟨3, 0, 0⟩).1 hgt).2⟩

/-! ### Concrete evaluation helpers -/

@[simp] theorem mk_add_mk (a b c d e f : ℝ) :
    (⟨a, b, c⟩ + ⟨d, e, f⟩ : Vec3) = ⟨a + d, b + e, c + f⟩ := rfl

@[simp] theorem mk_sub_mk (a b c d e f : ℝ) :
    (⟨a, b, c⟩ - ⟨d, e, f⟩ : Vec3) = ⟨a - d, b - e, c - f⟩ := rfl

@[simp] theorem smul_mk (t a b c : ℝ) :
    smul t ⟨a, b, c⟩ = ⟨t * a, t * b, t * c⟩ := rfl

@[simp] theorem vdiv_mk (a b c t : ℝ) :
    vdiv ⟨a, b, c⟩ t = ⟨a / t, b / t, c / t⟩ := rfl

theorem vzero_def : vzero = ⟨0, 0, 0⟩ := rfl

theorem glmLength_zero : glmLength ⟨0, 0, 0⟩ = 0 := by
  simp [glmLength]

theorem glmDistance_self (a : Vec3) : glmDistance a a = 0 := by
  simp [glmDistance, glmLength]

theorem clampSpeed_zero : clampSpeed ⟨0, 0, 0⟩ = ⟨0, 0, 0⟩ := by
  rw [clampSpeed, if_neg]
  rw [glmLength_zero, maxSpeed]
  norm_num

theorem glmLength_tenth : glmLength ⟨1 / 10, 0, 0⟩ = 1 / 10 := by
  simp only [glmLength]
  rw [show (1 / 10 : ℝ) * (1 / 10) + 0 * 0 + 0 * 0 = (1 / 10) ^ 2 by norm_num,
    Real.sqrt_sq (by norm_num)]

theorem clampSpeed_tenth : clampSpeed ⟨1 / 10, 0, 0⟩ = ⟨1 / 10, 0, 0⟩ := by
  rw [clampSpeed, if_neg]
  rw [glmLength_tenth, maxSpeed]
  norm_num

theorem glmLength_two : glmLength ⟨2, 0, 0⟩ = 2 := by
  simp only [glmLength]
  rw [show (2 : ℝ) * 2 + 0 * 0 + 0 * 0 = 2 ^ 2 by norm_num,
    Real.sqrt_sq (by norm_num)]

theorem clampSpeed_two : clampSpeed ⟨2, 0, 0⟩ = ⟨1, 0, 0⟩ := by
  rw [clampSpeed, if_pos]
  · rw [glmNormalize, glmLength_two]
    rw [maxSpeed]
    norm_num
  · rw [glmLength_two, maxSpeed]
    norm_num

/-- A neighbor at the agent's own position within all three radii. -/
theorem ruleStep_coincident (ps ov : Vec3) (acc : RuleAccum) :
    ruleStep ps ps ov acc =
      { perceived_center_rule1 := acc.perceived_center_rule1 + ps,
        dodging_velocity_rule2 := acc.dodging_velocity_rule2 + (ps - ps),
        cohesion_velocity_rule3 := acc.cohesion_velocity_rule3 + ov,
        neighbors_rule1 := acc.neighbors_rule1 + 1,
        neighbors_rule3 := acc.neighbors_rule3 + 1 } := by
  simp only [ruleStep, glmDistance_self]
  rw [if_pos (by norm_num [rule1Distance, rule2Distance, rule3Distance]),
    if_pos (by norm_num [rule1Distance, rule2Distance, rule3Distance]),
    if_pos (by norm_num [rule1Distance, rule2Distance, rule3Distance])]

theorem finalizeRules_zero (ps : Vec3) : finalizeRules ps RuleAccum.zero = ⟨0, 0, 0⟩ := by
  simp only [finalizeRules, RuleAccum.zero]
  rw [if_neg (by norm_num), if_neg (by norm_num)]
  rw [vzero_def]
  simp [rule2Scale]

/-- The brute-force next-velocity of the resting boid 0 of
`twoBoidState`: its coincident neighbor contributes only the alignment
rule, giving (1/10, 0, 0). -/
theorem naive_vel_twoBoid :
    kernUpdateVelocityBruteForce 2 twoBoidState.pos twoBoidState.vel1 0 = ⟨1 / 10, 0, 0⟩ := by
  have hp : ∀ i, twoBoidState.pos i = ⟨0, 0, 0⟩ := fun _ => rfl
  have hv1 : twoBoidState.vel1 1 = ⟨1, 0, 0⟩ := rfl
  have hv0 : twoBoidState.vel1 0 = ⟨0, 0, 0⟩ := rfl
  rw [kernUpdateVelocityBruteForce, computeVelocityChange]
  rw [show List.range 2 = [0, 1] from rfl]
  simp only [List.foldl_cons, List.foldl_nil]
  norm_num [hp, hv1, hv0, ruleStep_coincident, finalizeRules, RuleAccum.zero,
    vzero_def, rule1Scale, rule2Scale, rule3Scale, clampSpeed_tenth]

/-- The naive step promotes that next-velocity for boid 0. -/
theorem naive_step_vel_twoBoid :
    (stepSimulationNaive 2 1 twoBoidState).vel1 0 = ⟨1 / 10, 0, 0⟩ := by
  show (if 0 < 2 then kernUpdateVelocityBruteForce 2 twoBoidState.pos twoBoidState.vel1 0
    else twoBoidState.vel1 0) = _
  rw [if_pos (by norm_num)]
  exact naive_vel_twoBoid

/-- Both boids of `twoBoidState` fall in flat grid cell 5577
(cell coordinate (11, 11, 11)). -/
theorem gridIndex_twoBoid (i : ℕ) : kernComputeGridIndex twoBoidState.pos i = 5577 := by
  have h11 : ⌊(11 : ℝ)⌋ = (11 : ℤ) := floor_eq_of _ 11 (by norm_num) (by norm_num)
  rw [kernComputeGridIndex]
  rw [show twoBoidState.pos i = ⟨0, 0, 0⟩ from rfl, gridMinimum_eq,
    gridInverseCellWidth_eq]
  norm_num [h11, gridIndex3Dto1D, gridSideCount_eq]

theorem sortedPairs_twoBoid :
    sortedPairs 2 twoBoidState.pos = [(5577, 0), (5577, 1)] := by
  rw [sortedPairs, show List.range 2 = [0, 1] from rfl]
  rw [List.map_cons, List.map_cons, List.map_nil]
  rw [gridIndex_twoBoid 0, gridIndex_twoBoid 1]
  rw [sortByKey]
  decide

theorem keys0_twoBoid : sortedGridKeys 2 twoBoidState.pos 0 = 5577 := by
  simp only [sortedGridKeys]
  rw [sortedPairs_twoBoid]
  rfl

theorem keys1_twoBoid : sortedGridKeys 2 twoBoidState.pos 1 = 5577 := by
  simp only [sortedGridKeys]
  rw [sortedPairs_twoBoid]
  rfl

/-- The cell tables a scattered step builds for `twoBoidState`: cell 5577
gets range [0, 2), every other entry keeps the sentinel. -/
theorem tables_twoBoid :
    stepCellTables 2 twoBoidState.pos twoBoidState.cellStart twoBoidState.cellEnd =
      ⟨updateAt (kernResetIntBufferAll 2 (-1) (fun _ => -1)) 5577 0,
        updateAt (kernResetIntBufferAll 2 (-1) (fun _ => -1)) 5577 2⟩ := by
  rw [stepCellTables, kernIdentifyCellStartEnd, show List.range 2 = [0, 1] from rfl,
    resetCellTables,
    show twoBoidState.cellStart = (fun _ : ℤ => (-1 : ℤ)) from rfl,
    show twoBoidState.cellEnd = (fun _ : ℤ => (-1 : ℤ)) from rfl]
  simp only [List.foldl_cons, List.foldl_nil, identifyStep]
  norm_num [keys0_twoBoid, keys1_twoBoid]

/-- A candidate cell whose fetched range trips the defensive test
contributes nothing. -/
theorem scatteredCellStep_skip (N : ℕ) (t : CellTables) (arrId : ℕ → ℕ)
    (pos vel1 : ℕ → Vec3) (i : ℕ) (ps : Vec3) (acc : RuleAccum) (c : ℤ)
    (h : skipCellRange N (t.cellStart c) (t.cellEnd c) = true) :
    scatteredCellStep N t arrId pos vel1 i ps acc c = acc := by
  simp only [scatteredCellStep, h, if_true]

/-- In the scattered step on `twoBoidState`, all eight candidate cells of
boid 0 are skipped — seven hold the sentinel, and the occupied cell 5577
has end index 2 = N, which the defensive test rejects — so boid 0's
velocity is unchanged. -/
theorem scattered_vel_twoBoid :
    kernUpdateVelNeighborSearchScattered 2
      (stepCellTables 2 twoBoidState.pos twoBoidState.cellStart twoBoidState.cellEnd)
      (sortedArrayIndices 2 twoBoidState.pos) twoBoidState.pos twoBoidState.vel1 0 =
      ⟨0, 0, 0⟩ := by
  rw [tables_twoBoid]
  simp only [kernUpdateVelNeighborSearchScattered]
  rw [show twoBoidState.pos 0 = ⟨0, 0, 0⟩ from rfl]
  rw [candidateCells_origin]
  simp only [List.foldl_cons, List.foldl_nil]
  rw [scatteredCellStep_skip _ _ _ _ _ _ _ _ _ (by decide)]
  rw [scatteredCellStep_skip _ _ _ _ _ _ _ _ _ (by decide)]
  rw [scatteredCellStep_skip _ _ _ _ _ _ _ _ _ (by decide)]
  rw [scatteredCellStep_skip _ _ _ _ _ _ _ _ _ (by decide)]
  rw [scatteredCellStep_skip _ _ _ _ _ _ _ _ _ (by decide)]
  rw [scatteredCellStep_skip _ _ _ _ _ _ _ _ _ (by decide)]
  rw [scatteredCellStep_skip _ _ _ _ _ _ _ _ _ (by decide)]
  rw [scatteredCellStep_skip _ _ _ _ _ _ _ _ _ (by decide)]
  rw [finalizeRules_zero, show twoBoidState.vel1 0 = ⟨0, 0, 0⟩ from rfl]
  norm_num [clampSpeed_zero]

theorem naive_step_pos_or_vel (s : BoidsState) (N : ℕ) (dt : ℝ) (i : ℕ) (h : i < N) :
    (stepSimulationNaive N dt s).vel1 i = kernUpdateVelocityBruteForce N s.pos s.vel1 i := by
  simp [stepSimulationNaive, h]

theorem scattered_step_vel_twoBoid :
    (stepSimulationScatteredGrid 2 1 twoBoidState).vel1 0 = ⟨0, 0, 0⟩ := by
  show (if 0 < 2 then kernUpdateVelNeighborSearchScattered 2
      (stepCellTables 2 twoBoidState.pos twoBoidState.cellStart twoBoidState.cellEnd)
      (sortedArrayIndices 2 twoBoidState.pos) twoBoidState.pos twoBoidState.vel1 0
    else twoBoidState.vel1 0) = _
  rw [if_pos (by norm_num)]
  exact scattered_vel_twoBoid

/-- Claim C1 is violated by the code: with two coincident boids (both in
grid cell 5577, well inside every rule radius) and clean sentinel tables,
one naive step gives boid 0 the next-velocity (1/10, 0, 0) from the
alignment rule, but one scattered-grid step on the same state gives
(0, 0, 0), because the only occupied cell's range [0, 2) ends exactly at
N = 2 and is skipped by the defensive test.  The difference 1/10 far
exceeds the claimed 1e-4 tolerance. -/
theorem variant_divergence :
    (stepSimulationNaive 2 1 twoBoidState).vel1 0 = ⟨1 / 10, 0, 0⟩ ∧
    (stepSimulationScatteredGrid 2 1 twoBoidState).vel1 0 = ⟨0, 0, 0⟩ ∧
    (1 / 10 : ℝ) - 0 > 1 / 10000 :=
  ⟨naive_step_vel_twoBoid, scattered_step_vel_twoBoid, by norm_num⟩

/-- The single fast boid has no neighbors, so its combined velocity is
its old (2, 0, 0), clamped to (1, 0, 0). -/
theorem naive_vel_fastBoid :
    kernUpdateVelocityBruteForce 1 fastBoidState.pos fastBoidState.vel1 0 = ⟨1, 0, 0⟩ := by
  rw [kernUpdateVelocityBruteForce, computeVelocityChange,
    show List.range 1 = [0] from rfl]
  simp only [List.foldl_cons, List.foldl_nil]
  norm_num [show fastBoidState.vel1 0 = ⟨2, 0, 0⟩ from rfl, finalizeRules_zero,
    clampSpeed_two]

theorem naive_pos_fastBoid :
    (stepSimulationNaive 1 1 fastBoidState).pos 0 = ⟨2, 0, 0⟩ := by
  show (if 0 < 1 then kernUpdatePosOne 1 fastBoidState.pos fastBoidState.vel1 0
    else fastBoidState.pos 0) = _
  rw [if_pos (by norm_num), kernUpdatePosOne]
  rw [show fastBoidState.pos 0 = ⟨0, 0, 0⟩ from rfl,
    show fastBoidState.vel1 0 = ⟨2, 0, 0⟩ from rfl]
  norm_num [wrapPos, wrapCoord, scene_scale]

/-- Claim C4 is violated by the code: all three step functions launch
`kernUpdatePos` reading `dev_vel1`, the pre-step velocities, before the
memcpy promotes vel2.  With one boid at rest position, old velocity
(2, 0, 0) and dt = 1, the step stores position x = 2, while the claim
(integrate the newly computed, clamped next-velocity (1, 0, 0)) requires
x = 1. -/
theorem pos_update_reads_old_velocity :
    (stepSimulationNaive 1 1 fastBoidState).pos 0 = ⟨2, 0, 0⟩ ∧
    (stepSimulationNaive 1 1 fastBoidState).vel1 0 = ⟨1, 0, 0⟩ ∧
    ¬ ((stepSimulationNaive 1 1 fastBoidState).pos 0).x =
        (fastBoidState.pos 0).x + ((stepSimulationNaive 1 1 fastBoidState).vel1 0).x * 1 := by
  have h2 : (stepSimulationNaive 1 1 fastBoidState).vel1 0 = ⟨1, 0, 0⟩ := by
    show (if 0 < 1 then kernUpdateVelocityBruteForce 1 fastBoidState.pos fastBoidState.vel1 0
      else fastBoidState.vel1 0) = _
    rw [if_pos (by norm_num)]
    exact naive_vel_fastBoid
  refine ⟨naive_pos_fastBoid, h2, ?_⟩
  rw [naive_pos_fastBoid, h2, show fastBoidState.pos 0 = ⟨0, 0, 0⟩ from rfl]
  norm_num

/-- Claim C4 amended: in every variant the position kernel integrates the
current (pre-step) velocity — in the coherent variant, the post-shuffle
current velocity of the slot — and only afterwards is the newly computed
next-velocity promoted to current. -/
theorem step_pos_integrates_current_velocity (N : ℕ) (dt : ℝ) (s : BoidsState)
    (i : ℕ) (h : i < N) :
    (stepSimulationNaive N dt s).pos i = wrapPos (s.pos i + smul dt (s.vel1 i)) ∧
    (stepSimulationNaive N dt s).vel1 i =
      kernUpdateVelocityBruteForce N s.pos s.vel1 i ∧
    (stepSimulationScatteredGrid N dt s).pos i = wrapPos (s.pos i + smul dt (s.vel1 i)) ∧
    (stepSimulationScatteredGrid N dt s).vel1 i =
      kernUpdateVelNeighborSearchScattered N
        (stepCellTables N s.pos s.cellStart s.cellEnd) (sortedArrayIndices N s.pos)
        s.pos s.vel1 i ∧
    (stepSimulationCoherentGrid N dt s).pos i =
      wrapPos (kernShuffleBuffer N (sortedArrayIndices N s.pos) s.pos i +
        smul dt (kernShuffleBuffer N (sortedArrayIndices N s.pos) s.vel1 i)) := by
  refine ⟨?_, ?_, ?_, ?_, ?_⟩ <;>
    simp [stepSimulationNaive, stepSimulationScatteredGrid,
      stepSimulationCoherentGrid, kernUpdatePosOne, h]

/-- Witness for the amended C4 theorem at N = 1, dt = 1. -/
theorem step_pos_integrates_current_velocity_witness :
    0 < 1 ∧ (stepSimulationNaive 1 1 fastBoidState).pos 0 =
      wrapPos (fastBoidState.pos 0 + smul 1 (fastBoidState.vel1 0)) :=
  ⟨Nat.one_pos, (step_pos_integrates_current_velocity 1 1 fastBoidState 0 Nat.one_pos).1⟩

end Boids
